import Mathlib

/-!
Verification of the asynchronous operation orchestration layer of
`deploy_vm.py`: a script that provisions a static address, a firewall
rule, and a compute instance against a cloud control plane, polling
asynchronous operations until they reach the terminal status `DONE`.

The remote control plane is modelled as an oracle: successive results of
the status queries issued by a poll loop form a stream `Nat → OpResult`
(the i-th query of that loop returns the i-th element of the stream), and
the value returned by the address fetch is a function of how many polls
were issued before the fetch.  The unbounded `while True` loops of the
source are embedded with explicit fuel: an exit within the fuel bound is
the loop returning or raising, and exhausted fuel stands for the loop
still running.
-/

/-- One result of a status query against an operations endpoint: the
`status` field and the optional `error` payload (`none` when the `error`
key is absent from the response). -/
structure OpResult where
  status : String
  error : Option String
deriving DecidableEq

/-- Outcome of one of the two generic waiters (`wait_for_operation`,
`wait_for_global_operation`): normal return after `queries` status
queries, an exception raised carrying the provider error payload after
`queries` status queries, or the loop still running when the fuel ran
out. -/
inductive WaitOutcome where
  | ok (queries : Nat)
  | raised (payload : String) (queries : Nat)
  | polling
deriving DecidableEq

/-- The `while True` body of `wait_for_operation` (deploy_vm.py lines
20-30): query the zone operations endpoint, break out of the loop when
the status is `DONE` — raising the `error` payload first when one is
present — and otherwise sleep and poll again.  `i` is the index of the
next status query, `fuel` bounds the number of remaining iterations. -/
def wait_for_operation.loop (polls : Nat → OpResult) : Nat → Nat → WaitOutcome
  | 0, _ => WaitOutcome.polling
  | fuel + 1, i =>
      if (polls i).status = "DONE" then
        match (polls i).error with
        | some e => WaitOutcome.raised e (i + 1)
        | none => WaitOutcome.ok (i + 1)
      else
        wait_for_operation.loop polls fuel (i + 1)

/-- `wait_for_operation` (deploy_vm.py lines 15-30): poll a zonal
operation until completion. -/
def wait_for_operation (polls : Nat → OpResult) (fuel : Nat) : WaitOutcome :=
  wait_for_operation.loop polls fuel 0

/-- The `while True` body of `wait_for_global_operation` (deploy_vm.py
lines 37-43); the source duplicates the zonal loop verbatim against the
global operations endpoint. -/
def wait_for_global_operation.loop (polls : Nat → OpResult) : Nat → Nat → WaitOutcome
  | 0, _ => WaitOutcome.polling
  | fuel + 1, i =>
      if (polls i).status = "DONE" then
        match (polls i).error with
        | some e => WaitOutcome.raised e (i + 1)
        | none => WaitOutcome.ok (i + 1)
      else
        wait_for_global_operation.loop polls fuel (i + 1)

/-- `wait_for_global_operation` (deploy_vm.py lines 32-43): poll a
global operation until completion. -/
def wait_for_global_operation (polls : Nat → OpResult) (fuel : Nat) : WaitOutcome :=
  wait_for_global_operation.loop polls fuel 0

/-- The inlined regional poll loop of `create_address` (deploy_vm.py
lines 59-65): break as soon as the status is `DONE`, WITHOUT inspecting
the `error` field (this is the asymmetry the source carries against the
two generic waiters).  Returns the number of status queries issued when
the loop exits within the fuel bound, `none` when it is still running. -/
def create_address.loop (polls : Nat → OpResult) : Nat → Nat → Option Nat
  | 0, _ => none
  | fuel + 1, i =>
      if (polls i).status = "DONE" then some (i + 1)
      else create_address.loop polls fuel (i + 1)

/-- The remote state `create_address` interacts with: the stream of
regional operation poll results, and the `address` field of the Address
resource as returned by `addresses().get`, indexed by the number of
polls issued before the fetch (the remote value can change over time:
it is a placeholder until allocation completes). -/
structure AddressEnv where
  polls : Nat → OpResult
  fetch : Nat → String

/-- `create_address` (deploy_vm.py lines 45-72): submit the address
insert, poll the regional operation until `DONE`, then fetch the Address
resource and return its `address` field.  `none` when the poll loop is
still running at the fuel bound (the fetch then never happens). -/
def create_address (env : AddressEnv) (fuel : Nat) : Option String :=
  match create_address.loop env.polls fuel 0 with
  | some n => some (env.fetch n)
  | none => none

/-- One entry of the `allowed` list of a firewall rule body. -/
structure AllowedEntry where
  IPProtocol : String
  ports : List String
deriving DecidableEq

/-- The firewall rule body submitted to `firewalls().insert`
(deploy_vm.py lines 81-90). -/
structure FirewallBody where
  name : String
  allowed : List AllowedEntry
  direction : String
  sourceRanges : List String
deriving DecidableEq

/-- The `firewall_body` literal built by `create_firewall_rule`
(deploy_vm.py lines 81-90). -/
def firewall_body (firewall_name : String) : FirewallBody :=
  { name := firewall_name
    allowed := [{ IPProtocol := "tcp", ports := ["22", "80"] }]
    direction := "INGRESS"
    sourceRanges := ["0.0.0.0/0"] }

/-- `create_firewall_rule` (deploy_vm.py lines 74-94): submit the static
rule body, then wait on the returned global operation.  The pair records
the submitted body and the waiter's outcome. -/
def create_firewall_rule (firewall_name : String) (polls : Nat → OpResult)
    (fuel : Nat) : FirewallBody × WaitOutcome :=
  (firewall_body firewall_name, wait_for_global_operation polls fuel)

/-- An access config of a network interface (deploy_vm.py lines 120-124). -/
structure AccessConfig where
  name : String
  type : String
  natIP : String
deriving DecidableEq

/-- A network interface of the instance config (deploy_vm.py lines 118-125). -/
structure NetworkInterface where
  network : String
  accessConfigs : List AccessConfig
deriving DecidableEq

/-- The `initializeParams` of a boot disk (deploy_vm.py lines 113-116). -/
structure InitializeParams where
  sourceImage : String
  diskSizeGb : Nat
deriving DecidableEq

/-- A disk entry of the instance config (deploy_vm.py lines 110-117). -/
structure Disk where
  boot : Bool
  autoDelete : Bool
  initializeParams : InitializeParams
deriving DecidableEq

/-- The `tags` object of the instance config (deploy_vm.py lines 126-128). -/
structure Tags where
  items : List String
deriving DecidableEq

/-- The full instance config submitted to `instances().insert`
(deploy_vm.py lines 107-129). -/
structure InstanceConfig where
  name : String
  machine_type : String
  disks : List Disk
  networkInterfaces : List NetworkInterface
  tags : Tags
deriving DecidableEq

/-- The `config` literal built by `create_instance` (deploy_vm.py lines
101-129), including the machine-type URI composed on line 103. -/
def instance_config (zone instance_name static_ip machine_type source_image : String)
    (disk_size_gb : Nat) : InstanceConfig :=
  { name := instance_name
    machine_type := "zones/" ++ zone ++ "/machineTypes/" ++ machine_type
    disks := [{ boot := true
                autoDelete := true
                initializeParams := { sourceImage := source_image
                                      diskSizeGb := disk_size_gb } }]
    networkInterfaces := [{ network := "global/networks/default"
                            accessConfigs := [{ name := "External_NAT"
                                                type := "ONE_TO_ONE_NAT"
                                                natIP := static_ip }] }]
    tags := { items := ["http-server", "ssh-server"] } }

/-- `create_instance` (deploy_vm.py lines 96-138): build the instance
config with the given static IP, submit it, then wait on the returned
zonal operation.  The pair records the submitted config and the waiter's
outcome. -/
def create_instance (zone instance_name static_ip machine_type source_image : String)
    (disk_size_gb : Nat) (polls : Nat → OpResult) (fuel : Nat) :
    InstanceConfig × WaitOutcome :=
  (instance_config zone instance_name static_ip machine_type source_image disk_size_gb,
    wait_for_operation polls fuel)

/-- The remote state `main` interacts with: one poll stream per poll
loop, plus the time-indexed address fetch. -/
structure Env where
  addressPolls : Nat → OpResult
  addressFetch : Nat → String
  firewallPolls : Nat → OpResult
  instancePolls : Nat → OpResult

/-- A mutating submission issued against the control plane during a run. -/
inductive Event where
  | addressInsert (name : String)
  | firewallInsert (body : FirewallBody)
  | instanceInsert (cfg : InstanceConfig)
deriving DecidableEq

/-- How a run of `main` ends: normal completion, a propagated exception
carrying the provider error payload, or still inside a poll loop at the
fuel bound. -/
inductive RunOutcome where
  | ok
  | raised (payload : String)
  | polling
deriving DecidableEq

/-- `main` (deploy_vm.py lines 140-176): allocate the static address,
then create the firewall rule, then create the instance with the
allocated address, each step blocking on its operation; an exception
aborts the rest of the chain.  Alongside the outcome, the list of
mutating submissions issued, in order. -/
def deploy_vm.main (env : Env) (fuel : Nat) : RunOutcome × List Event :=
  match create_address { polls := env.addressPolls, fetch := env.addressFetch } fuel with
  | none => (RunOutcome.polling, [Event.addressInsert "vm-static-ip"])
  | some static_ip =>
    let fw := create_firewall_rule "allow-ssh-http" env.firewallPolls fuel
    match fw.2 with
    | WaitOutcome.polling =>
        (RunOutcome.polling,
          [Event.addressInsert "vm-static-ip", Event.firewallInsert fw.1])
    | WaitOutcome.raised e _ =>
        (RunOutcome.raised e,
          [Event.addressInsert "vm-static-ip", Event.firewallInsert fw.1])
    | WaitOutcome.ok _ =>
      let inst := create_instance "us-central1-a" "cloud-ca-vm-instance" static_ip
          "n1-standard-2" "projects/ubuntu-os-cloud/global/images/family/ubuntu-2004-lts"
          250 env.instancePolls fuel
      match inst.2 with
      | WaitOutcome.polling =>
          (RunOutcome.polling,
            [Event.addressInsert "vm-static-ip", Event.firewallInsert fw.1,
              Event.instanceInsert inst.1])
      | WaitOutcome.raised e _ =>
          (RunOutcome.raised e,
            [Event.addressInsert "vm-static-ip", Event.firewallInsert fw.1,
              Event.instanceInsert inst.1])
      | WaitOutcome.ok _ =>
          (RunOutcome.ok,
            [Event.addressInsert "vm-static-ip", Event.firewallInsert fw.1,
              Event.instanceInsert inst.1])

/-- Number of instance-create submissions in a trace. -/
def countInstanceInserts (tr : List Event) : Nat :=
  (tr.filter fun ev =>
    match ev with
    | Event.instanceInsert _ => true
    | _ => false).length

/-! ### Shared lemmas about the three poll loops -/

/-- The global waiter's loop is the same function as the zonal one (the
source duplicates the loop body verbatim). -/
lemma globalLoop_eq_waitLoop (polls : Nat → OpResult) :
    ∀ fuel i, wait_for_global_operation.loop polls fuel i =
      wait_for_operation.loop polls fuel i := by
  intro fuel
  induction fuel with
  | zero => intro i; rfl
  | succ fuel ih =>
      intro i
      simp only [wait_for_global_operation.loop, wait_for_operation.loop, ih]

/-- If the generic waiter's loop exits (returns or raises) after `q`
queries, the last-polled status was `DONE` and every earlier poll of
this loop was non-terminal. -/
lemma waitLoop_exit (polls : Nat → OpResult) :
    ∀ fuel i q, (wait_for_operation.loop polls fuel i = WaitOutcome.ok q ∨
        ∃ e, wait_for_operation.loop polls fuel i = WaitOutcome.raised e q) →
      i < q ∧ (polls (q - 1)).status = "DONE" ∧
        ∀ j, i ≤ j → j < q - 1 → (polls j).status ≠ "DONE" := by
  intro fuel
  induction fuel with
  | zero =>
      intro i q h
      rcases h with h | ⟨e, h⟩ <;> simp [wait_for_operation.loop] at h
  | succ fuel ih =>
      intro i q h
      by_cases hd : (polls i).status = "DONE"
      · have hq : q = i + 1 := by
          rcases herr : (polls i).error with _ | e <;>
            rcases h with h | ⟨e', h⟩ <;>
            simp only [wait_for_operation.loop, if_pos hd, herr] at h <;>
            first
            | (cases h; rfl)
            | exact absurd h (by simp)
        refine ⟨by omega, ?_, ?_⟩
        · rw [hq]; simpa using hd
        · intro j hj1 hj2; omega
      · simp only [wait_for_operation.loop, if_neg hd] at h
        obtain ⟨h1, h2, h3⟩ := ih (i + 1) q h
        refine ⟨by omega, h2, ?_⟩
        intro j hj1 hj2
        rcases eq_or_lt_of_le hj1 with rfl | hj
        · exact hd
        · exact h3 j hj hj2

/-- If `n` is the index of the first `DONE` poll and the fuel reaches
it, the generic waiter's loop exits at poll `n`: it raises the error
payload when one is present there and returns normally otherwise. -/
lemma waitLoop_reach (polls : Nat → OpResult) (n : Nat)
    (hdone : (polls n).status = "DONE") :
    ∀ fuel i, i ≤ n → (∀ j, i ≤ j → j < n → (polls j).status ≠ "DONE") →
      n < i + fuel →
      wait_for_operation.loop polls fuel i =
        (match (polls n).error with
          | some e => WaitOutcome.raised e (n + 1)
          | none => WaitOutcome.ok (n + 1)) := by
  intro fuel
  induction fuel with
  | zero => intro i _ _ h3; omega
  | succ fuel ih =>
      intro i h1 h2 h3
      rcases eq_or_lt_of_le h1 with rfl | hlt
      · simp only [wait_for_operation.loop, if_pos hdone]
      · have hne : (polls i).status ≠ "DONE" := h2 i le_rfl hlt
        simp only [wait_for_operation.loop, if_neg hne]
        exact ih (i + 1) hlt (fun j hj1 hj2 => h2 j (by omega) hj2) (by omega)

/-- If no poll is ever `DONE`, the generic waiter's loop never exits,
whatever fuel it is given. -/
lemma waitLoop_no_done (polls : Nat → OpResult)
    (h : ∀ j, (polls j).status ≠ "DONE") :
    ∀ fuel i, wait_for_operation.loop polls fuel i = WaitOutcome.polling := by
  intro fuel
  induction fuel with
  | zero => intro i; rfl
  | succ fuel ih =>
      intro i
      simp only [wait_for_operation.loop, if_neg (h i)]
      exact ih (i + 1)

/-- The generic waiter's loop only reads the error field of a poll whose
status is `DONE`: two streams that agree on all statuses, and on the
error field wherever the status is `DONE`, produce identical outcomes. -/
lemma waitLoop_congr (polls polls' : Nat → OpResult)
    (hs : ∀ i, (polls i).status = (polls' i).status)
    (he : ∀ i, (polls i).status = "DONE" → (polls i).error = (polls' i).error) :
    ∀ fuel i, wait_for_operation.loop polls fuel i =
      wait_for_operation.loop polls' fuel i := by
  intro fuel
  induction fuel with
  | zero => intro i; rfl
  | succ fuel ih =>
      intro i
      by_cases hd : (polls i).status = "DONE"
      · have hd' : (polls' i).status = "DONE" := by rw [← hs i]; exact hd
        simp only [wait_for_operation.loop, if_pos hd, if_pos hd', ← he i hd]
      · have hd' : ¬(polls' i).status = "DONE" := by rw [← hs i]; exact hd
        simp only [wait_for_operation.loop, if_neg hd, if_neg hd']
        exact ih (i + 1)

/-- If the inlined regional loop of `create_address` exits after `q`
queries, the last-polled status was `DONE` and every earlier poll of
this loop was non-terminal. -/
lemma addrLoop_exit (polls : Nat → OpResult) :
    ∀ fuel i q, create_address.loop polls fuel i = some q →
      i < q ∧ (polls (q - 1)).status = "DONE" ∧
        ∀ j, i ≤ j → j < q - 1 → (polls j).status ≠ "DONE" := by
  intro fuel
  induction fuel with
  | zero => intro i q h; simp [create_address.loop] at h
  | succ fuel ih =>
      intro i q h
      by_cases hd : (polls i).status = "DONE"
      · simp only [create_address.loop, if_pos hd, Option.some.injEq] at h
        refine ⟨by omega, ?_, ?_⟩
        · rw [← h]; simpa using hd
        · intro j hj1 hj2; omega
      · simp only [create_address.loop, if_neg hd] at h
        obtain ⟨h1, h2, h3⟩ := ih (i + 1) q h
        refine ⟨by omega, h2, ?_⟩
        intro j hj1 hj2
        rcases eq_or_lt_of_le hj1 with rfl | hj
        · exact hd
        · exact h3 j hj hj2

/-- If `n` is the index of the first `DONE` poll and the fuel reaches
it, the regional loop exits after `n + 1` queries — regardless of any
error payload, which it never inspects. -/
lemma addrLoop_reach (polls : Nat → OpResult) (n : Nat)
    (hdone : (polls n).status = "DONE") :
    ∀ fuel i, i ≤ n → (∀ j, i ≤ j → j < n → (polls j).status ≠ "DONE") →
      n < i + fuel → create_address.loop polls fuel i = some (n + 1) := by
  intro fuel
  induction fuel with
  | zero => intro i _ _ h3; omega
  | succ fuel ih =>
      intro i h1 h2 h3
      rcases eq_or_lt_of_le h1 with rfl | hlt
      · simp only [create_address.loop, if_pos hdone]
      · have hne : (polls i).status ≠ "DONE" := h2 i le_rfl hlt
        simp only [create_address.loop, if_neg hne]
        exact ih (i + 1) hlt (fun j hj1 hj2 => h2 j (by omega) hj2) (by omega)

/-- If no poll is ever `DONE`, the regional loop never exits. -/
lemma addrLoop_no_done (polls : Nat → OpResult)
    (h : ∀ j, (polls j).status ≠ "DONE") :
    ∀ fuel i, create_address.loop polls fuel i = none := by
  intro fuel
  induction fuel with
  | zero => intro i; rfl
  | succ fuel ih =>
      intro i
      simp only [create_address.loop, if_neg (h i)]
      exact ih (i + 1)

/-- The payload carried by a raise of the generic waiter's loop is the
error field of the poll at which it raised. -/
lemma waitLoop_raised_payload (polls : Nat → OpResult) :
    ∀ fuel i e q, wait_for_operation.loop polls fuel i = WaitOutcome.raised e q →
      (polls (q - 1)).error = some e := by
  intro fuel
  induction fuel with
  | zero => intro i e q h; simp [wait_for_operation.loop] at h
  | succ fuel ih =>
      intro i e q h
      by_cases hd : (polls i).status = "DONE"
      · rcases herr : (polls i).error with _ | e'
        · simp only [wait_for_operation.loop, if_pos hd, herr] at h
          simp at h
        · simp only [wait_for_operation.loop, if_pos hd, herr] at h
          cases h
          simpa using herr
      · simp only [wait_for_operation.loop, if_neg hd] at h
        exact ih (i + 1) e q h

/-! ### Case equations for `deploy_vm.main` -/

/-- `main` when the regional address loop never exits: only the address
insert was submitted. -/
lemma main_addr_polling (env : Env) (fuel : Nat)
    (hca : create_address { polls := env.addressPolls, fetch := env.addressFetch } fuel = none) :
    deploy_vm.main env fuel = (RunOutcome.polling, [Event.addressInsert "vm-static-ip"]) := by
  unfold deploy_vm.main
  rw [hca]

/-- `main` when the firewall wait never exits. -/
lemma main_fw_polling (env : Env) (fuel : Nat) (ip : String)
    (hca : create_address { polls := env.addressPolls, fetch := env.addressFetch } fuel = some ip)
    (hfw : wait_for_global_operation env.firewallPolls fuel = WaitOutcome.polling) :
    deploy_vm.main env fuel = (RunOutcome.polling,
      [Event.addressInsert "vm-static-ip",
        Event.firewallInsert (firewall_body "allow-ssh-http")]) := by
  simp [deploy_vm.main, hca, create_firewall_rule, hfw]

/-- `main` when the firewall wait raises: the exception aborts the chain
before the instance insert. -/
lemma main_fw_raised (env : Env) (fuel : Nat) (ip e : String) (q : Nat)
    (hca : create_address { polls := env.addressPolls, fetch := env.addressFetch } fuel = some ip)
    (hfw : wait_for_global_operation env.firewallPolls fuel = WaitOutcome.raised e q) :
    deploy_vm.main env fuel = (RunOutcome.raised e,
      [Event.addressInsert "vm-static-ip",
        Event.firewallInsert (firewall_body "allow-ssh-http")]) := by
  simp [deploy_vm.main, hca, create_firewall_rule, hfw]

/-- `main` when the firewall wait returns and the instance wait never
exits. -/
lemma main_inst_polling (env : Env) (fuel : Nat) (ip : String) (q : Nat)
    (hca : create_address { polls := env.addressPolls, fetch := env.addressFetch } fuel = some ip)
    (hfw : wait_for_global_operation env.firewallPolls fuel = WaitOutcome.ok q)
    (hin : wait_for_operation env.instancePolls fuel = WaitOutcome.polling) :
    deploy_vm.main env fuel = (RunOutcome.polling,
      [Event.addressInsert "vm-static-ip",
        Event.firewallInsert (firewall_body "allow-ssh-http"),
        Event.instanceInsert (instance_config "us-central1-a" "cloud-ca-vm-instance" ip
          "n1-standard-2" "projects/ubuntu-os-cloud/global/images/family/ubuntu-2004-lts" 250)]) := by
  simp [deploy_vm.main, hca, create_firewall_rule, hfw, create_instance, hin]

/-- `main` when the firewall wait returns and the instance wait raises. -/
lemma main_inst_raised (env : Env) (fuel : Nat) (ip e : String) (q q' : Nat)
    (hca : create_address { polls := env.addressPolls, fetch := env.addressFetch } fuel = some ip)
    (hfw : wait_for_global_operation env.firewallPolls fuel = WaitOutcome.ok q)
    (hin : wait_for_operation env.instancePolls fuel = WaitOutcome.raised e q') :
    deploy_vm.main env fuel = (RunOutcome.raised e,
      [Event.addressInsert "vm-static-ip",
        Event.firewallInsert (firewall_body "allow-ssh-http"),
        Event.instanceInsert (instance_config "us-central1-a" "cloud-ca-vm-instance" ip
          "n1-standard-2" "projects/ubuntu-os-cloud/global/images/family/ubuntu-2004-lts" 250)]) := by
  simp [deploy_vm.main, hca, create_firewall_rule, hfw, create_instance, hin]

/-- `main` on a fully successful run. -/
lemma main_inst_ok (env : Env) (fuel : Nat) (ip : String) (q q' : Nat)
    (hca : create_address { polls := env.addressPolls, fetch := env.addressFetch } fuel = some ip)
    (hfw : wait_for_global_operation env.firewallPolls fuel = WaitOutcome.ok q)
    (hin : wait_for_operation env.instancePolls fuel = WaitOutcome.ok q') :
    deploy_vm.main env fuel = (RunOutcome.ok,
      [Event.addressInsert "vm-static-ip",
        Event.firewallInsert (firewall_body "allow-ssh-http"),
        Event.instanceInsert (instance_config "us-central1-a" "cloud-ca-vm-instance" ip
          "n1-standard-2" "projects/ubuntu-os-cloud/global/images/family/ubuntu-2004-lts" 250)]) := by
  simp [deploy_vm.main, hca, create_firewall_rule, hfw, create_instance, hin]

/-- An instance-create submission occurs in a run only when the address
provisioner returned a value, and the submitted config is exactly the
one built from that value. -/
lemma main_instanceInsert_mem (env : Env) (fuel : Nat) (cfg : InstanceConfig)
    (h : Event.instanceInsert cfg ∈ (deploy_vm.main env fuel).2) :
    ∃ ip, create_address { polls := env.addressPolls, fetch := env.addressFetch } fuel = some ip ∧
      cfg = instance_config "us-central1-a" "cloud-ca-vm-instance" ip
        "n1-standard-2" "projects/ubuntu-os-cloud/global/images/family/ubuntu-2004-lts" 250 := by
  rcases hca : create_address { polls := env.addressPolls, fetch := env.addressFetch } fuel with _ | ip
  · rw [main_addr_polling env fuel hca] at h
    simp at h
  · refine ⟨ip, rfl, ?_⟩
    cases hfw : wait_for_global_operation env.firewallPolls fuel with
    | ok q =>
        cases hin : wait_for_operation env.instancePolls fuel with
        | ok q' =>
            rw [main_inst_ok env fuel ip q q' hca hfw hin] at h
            simpa using h
        | raised e q' =>
            rw [main_inst_raised env fuel ip e q q' hca hfw hin] at h
            simpa using h
        | polling =>
            rw [main_inst_polling env fuel ip q hca hfw hin] at h
            simpa using h
    | raised e q =>
        rw [main_fw_raised env fuel ip e q hca hfw] at h
        simp at h
    | polling =>
        rw [main_fw_polling env fuel ip hca hfw] at h
        simp at h

/-! ### Concrete poll streams and environments used by witnesses -/

/-- A poll stream that is terminal with no error from the first query. -/
def pollsDone : Nat → OpResult := fun _ => { status := "DONE", error := none }

/-- A poll stream that never reaches a terminal status. -/
def pollsNever : Nat → OpResult := fun _ => { status := "RUNNING", error := none }

/-- `RUNNING` for 3 poll cycles, then `DONE` with no error. -/
def pollsRun3 : Nat → OpResult := fun i =>
  if i < 3 then { status := "RUNNING", error := none }
  else { status := "DONE", error := none }

/-- Terminal from the first query, carrying the error payload `boom`. -/
def pollsBoom : Nat → OpResult := fun _ => { status := "DONE", error := some "boom" }

/-- Like `pollsQuiet` but with a spurious error payload on the
non-terminal polls. -/
def pollsNoisy : Nat → OpResult := fun i =>
  if i < 2 then { status := "RUNNING", error := some "transient" }
  else { status := "DONE", error := none }

/-- `RUNNING` twice with no error, then `DONE` with no error. -/
def pollsQuiet : Nat → OpResult := fun i =>
  if i < 2 then { status := "RUNNING", error := none }
  else { status := "DONE", error := none }

/-- Address environment whose allocation is terminal immediately. -/
def addrEnvOk : AddressEnv := { polls := pollsDone, fetch := fun _ => "34.1.2.3" }

/-- Address environment whose allocation operation is terminal and
failed, carrying the payload `boom`. -/
def addrEnvBoom : AddressEnv := { polls := pollsBoom, fetch := fun _ => "203.0.113.5" }

/-- All-success environment for a full run. -/
def envOk : Env :=
  { addressPolls := pollsDone
    addressFetch := fun _ => "34.1.2.3"
    firewallPolls := pollsDone
    instancePolls := pollsDone }

/-- Environment whose firewall operation fails with `quota exceeded`. -/
def envFwQuota : Env :=
  { addressPolls := pollsDone
    addressFetch := fun _ => "34.1.2.3"
    firewallPolls := fun _ => { status := "DONE", error := some "quota exceeded" }
    instancePolls := pollsDone }

/-- The instance config of a run whose address provisioner returned
`34.1.2.3`. -/
def cfgOk : InstanceConfig :=
  instance_config "us-central1-a" "cloud-ca-vm-instance" "34.1.2.3" "n1-standard-2"
    "projects/ubuntu-os-cloud/global/images/family/ubuntu-2004-lts" 250

/-! ### Claims about the operation waiters -/

/-- C4: each of the three poll loops (zonal waiter, global waiter, and
the regional loop inside the address provisioner) exits only at the
first poll whose status is `DONE` — on exit after `q` queries, poll
`q - 1` is `DONE` and every earlier poll was non-terminal — and when no
poll is ever `DONE` the loop never exits, whatever the fuel bound. -/
theorem C4_loops_exit_only_at_first_done (polls : Nat → OpResult) (fuel : Nat) :
    (∀ q, (wait_for_operation polls fuel = WaitOutcome.ok q ∨
        ∃ e, wait_for_operation polls fuel = WaitOutcome.raised e q) →
      1 ≤ q ∧ (polls (q - 1)).status = "DONE" ∧
        ∀ i < q - 1, (polls i).status ≠ "DONE") ∧
    (∀ q, (wait_for_global_operation polls fuel = WaitOutcome.ok q ∨
        ∃ e, wait_for_global_operation polls fuel = WaitOutcome.raised e q) →
      1 ≤ q ∧ (polls (q - 1)).status = "DONE" ∧
        ∀ i < q - 1, (polls i).status ≠ "DONE") ∧
    (∀ q, create_address.loop polls fuel 0 = some q →
      1 ≤ q ∧ (polls (q - 1)).status = "DONE" ∧
        ∀ i < q - 1, (polls i).status ≠ "DONE") ∧
    ((∀ i, (polls i).status ≠ "DONE") →
      wait_for_operation polls fuel = WaitOutcome.polling ∧
      wait_for_global_operation polls fuel = WaitOutcome.polling ∧
      create_address.loop polls fuel 0 = none) := by
  refine ⟨?_, ?_, ?_, ?_⟩
  · intro q h
    obtain ⟨h1, h2, h3⟩ := waitLoop_exit polls fuel 0 q h
    exact ⟨h1, h2, fun i hi => h3 i (Nat.zero_le i) hi⟩
  · intro q h
    rw [show wait_for_global_operation polls fuel = wait_for_operation.loop polls fuel 0 from
      globalLoop_eq_waitLoop polls fuel 0] at h
    obtain ⟨h1, h2, h3⟩ := waitLoop_exit polls fuel 0 q h
    exact ⟨h1, h2, fun i hi => h3 i (Nat.zero_le i) hi⟩
  · intro q h
    obtain ⟨h1, h2, h3⟩ := addrLoop_exit polls fuel 0 q h
    exact ⟨h1, h2, fun i hi => h3 i (Nat.zero_le i) hi⟩
  · intro h
    refine ⟨waitLoop_no_done polls h fuel 0, ?_, addrLoop_no_done polls h fuel 0⟩
    exact (globalLoop_eq_waitLoop polls fuel 0).trans (waitLoop_no_done polls h fuel 0)

/-- Witness for C4: a stream that never turns `DONE` keeps all three
loops running at fuel 5. -/
theorem C4_loops_exit_only_at_first_done_witness :
    wait_for_operation pollsNever 5 = WaitOutcome.polling ∧
    wait_for_global_operation pollsNever 5 = WaitOutcome.polling ∧
    create_address.loop pollsNever 5 0 = none :=
  (C4_loops_exit_only_at_first_done pollsNever 5).2.2.2
    (fun _ => (by decide : ("RUNNING" : String) ≠ "DONE"))

/-- C7: the zonal waiter issues one status query per iteration, so when
polls `0..n-1` are non-terminal and poll `n` is `DONE` with no error, it
returns after exactly `n + 1` status queries (in particular `RUNNING`
for 3 cycles then `DONE` gives exactly 4 queries). -/
theorem C7_query_count (polls : Nat → OpResult) (n fuel : Nat)
    (hbefore : ∀ i < n, (polls i).status ≠ "DONE")
    (hdone : (polls n).status = "DONE")
    (herr : (polls n).error = none)
    (hfuel : n < fuel) :
    wait_for_operation polls fuel = WaitOutcome.ok (n + 1) := by
  have h := waitLoop_reach polls n hdone fuel 0 (Nat.zero_le n)
    (fun j _ hj => hbefore j hj) (by omega)
  rw [herr] at h
  exact h

/-- Witness for C7: `RUNNING` for 3 poll cycles then `DONE` with no
error makes the waiter return after exactly 4 status queries. -/
theorem C7_query_count_witness :
    wait_for_operation pollsRun3 10 = WaitOutcome.ok 4 :=
  C7_query_count pollsRun3 3 10 (by decide) (by decide) (by decide) (by decide)

/-- C9: when the first `DONE` poll carries no error payload, both the
zonal and the global waiter return normally (no raise). -/
theorem C9_done_without_error_returns (polls : Nat → OpResult) (n fuel : Nat)
    (hbefore : ∀ i < n, (polls i).status ≠ "DONE")
    (hdone : (polls n).status = "DONE")
    (herr : (polls n).error = none)
    (hfuel : n < fuel) :
    wait_for_operation polls fuel = WaitOutcome.ok (n + 1) ∧
    wait_for_global_operation polls fuel = WaitOutcome.ok (n + 1) := by
  have h := waitLoop_reach polls n hdone fuel 0 (Nat.zero_le n)
    (fun j _ hj => hbefore j hj) (by omega)
  rw [herr] at h
  exact ⟨h, (globalLoop_eq_waitLoop polls fuel 0).trans h⟩

/-- Witness for C9: an immediately terminal, error-free stream makes
both waiters return normally after one query. -/
theorem C9_done_without_error_returns_witness :
    wait_for_operation pollsDone 1 = WaitOutcome.ok 1 ∧
    wait_for_global_operation pollsDone 1 = WaitOutcome.ok 1 :=
  C9_done_without_error_returns pollsDone 0 1 (by decide) (by decide) (by decide) (by decide)

/-- C10: the waiters never read the error field of a non-terminal poll —
two streams agreeing on all statuses and on the error field at `DONE`
polls produce identical outcomes — and a raise can only happen at the
first `DONE` poll, with the payload taken from that poll. -/
theorem C10_error_ignored_before_done (polls polls' : Nat → OpResult) (fuel : Nat)
    (hs : ∀ i, (polls i).status = (polls' i).status)
    (he : ∀ i, (polls i).status = "DONE" → (polls i).error = (polls' i).error) :
    wait_for_operation polls fuel = wait_for_operation polls' fuel ∧
    wait_for_global_operation polls fuel = wait_for_global_operation polls' fuel ∧
    ∀ e q, wait_for_operation polls fuel = WaitOutcome.raised e q →
      (polls (q - 1)).status = "DONE" ∧ (polls (q - 1)).error = some e ∧
        ∀ i < q - 1, (polls i).status ≠ "DONE" := by
  refine ⟨waitLoop_congr polls polls' hs he fuel 0, ?_, ?_⟩
  · exact (globalLoop_eq_waitLoop polls fuel 0).trans
      ((waitLoop_congr polls polls' hs he fuel 0).trans
        (globalLoop_eq_waitLoop polls' fuel 0).symm)
  · intro e q hr
    obtain ⟨_, h2, h3⟩ := waitLoop_exit polls fuel 0 q (Or.inr ⟨e, hr⟩)
    exact ⟨h2, waitLoop_raised_payload polls fuel 0 e q hr,
      fun i hi => h3 i (Nat.zero_le i) hi⟩

/-- Witness for C10: adding a spurious error payload to the non-terminal
polls of a stream changes neither waiter's outcome. -/
theorem C10_error_ignored_before_done_witness :
    wait_for_operation pollsNoisy 5 = wait_for_operation pollsQuiet 5 ∧
    wait_for_global_operation pollsNoisy 5 = wait_for_global_operation pollsQuiet 5 := by
  have hs : ∀ i, (pollsNoisy i).status = (pollsQuiet i).status := by
    intro i
    by_cases h : i < 2 <;> simp [pollsNoisy, pollsQuiet, h]
  have he : ∀ i, (pollsNoisy i).status = "DONE" →
      (pollsNoisy i).error = (pollsQuiet i).error := by
    intro i hi
    by_cases h : i < 2
    · have hr : (pollsNoisy i).status = "RUNNING" := by simp [pollsNoisy, h]
      rw [hr] at hi
      exact absurd hi (by decide)
    · have e1 : (pollsNoisy i).error = none := by simp [pollsNoisy, h]
      have e2 : (pollsQuiet i).error = none := by simp [pollsQuiet, h]
      rw [e1, e2]
  exact ⟨(C10_error_ignored_before_done pollsNoisy pollsQuiet 5 hs he).1,
    (C10_error_ignored_before_done pollsNoisy pollsQuiet 5 hs he).2.1⟩

/-- C1 (amended): when the first `DONE` poll carries an error payload,
the zonal and the global waiter raise with exactly that payload; the
regional poll loop inlined in `create_address`, however, never inspects
the error field — it exits on `DONE` and `create_address` goes on to
fetch and return the address value normally. -/
theorem C1_error_payload_propagation (polls : Nat → OpResult) (n fuel : Nat) (e : String)
    (hbefore : ∀ i < n, (polls i).status ≠ "DONE")
    (hdone : (polls n).status = "DONE")
    (herr : (polls n).error = some e)
    (hfuel : n < fuel) :
    wait_for_operation polls fuel = WaitOutcome.raised e (n + 1) ∧
    wait_for_global_operation polls fuel = WaitOutcome.raised e (n + 1) ∧
    ∀ fetch : Nat → String,
      create_address { polls := polls, fetch := fetch } fuel = some (fetch (n + 1)) := by
  have h := waitLoop_reach polls n hdone fuel 0 (Nat.zero_le n)
    (fun j _ hj => hbefore j hj) (by omega)
  rw [herr] at h
  refine ⟨h, (globalLoop_eq_waitLoop polls fuel 0).trans h, ?_⟩
  intro fetch
  have ha := addrLoop_reach polls n hdone fuel 0 (Nat.zero_le n)
    (fun j _ hj => hbefore j hj) (by omega)
  simp [create_address, ha]

/-- Counterexample to C1 as stated: on a regional operation that is
terminal and carries the error payload `boom`, `create_address` does not
fail — it returns the fetched address value normally. -/
theorem C1_regional_loop_ignores_error :
    (addrEnvBoom.polls 0).status = "DONE" ∧
    (addrEnvBoom.polls 0).error = some "boom" ∧
    create_address addrEnvBoom 1 = some "203.0.113.5" := by
  decide

/-- Witness for the amended C1: an immediately failed operation makes
both generic waiters raise `boom` after one query, while the address
provisioner still returns the fetched value. -/
theorem C1_error_payload_propagation_witness :
    wait_for_operation pollsBoom 1 = WaitOutcome.raised "boom" 1 ∧
    wait_for_global_operation pollsBoom 1 = WaitOutcome.raised "boom" 1 ∧
    create_address { polls := pollsBoom, fetch := fun _ => "203.0.113.5" } 1 =
      some "203.0.113.5" :=
  ⟨(C1_error_payload_propagation pollsBoom 0 1 "boom"
      (by decide) (by decide) (by decide) (by decide)).1,
    (C1_error_payload_propagation pollsBoom 0 1 "boom"
      (by decide) (by decide) (by decide) (by decide)).2.1,
    (C1_error_payload_propagation pollsBoom 0 1 "boom"
      (by decide) (by decide) (by decide) (by decide)).2.2 (fun _ => "203.0.113.5")⟩

/-- C6: whenever the regional loop exits after `n` queries, the value
returned by `create_address` is exactly the `address` field fetched
after that exit (time `n`), and that exit happened at the first `DONE`
poll — the fetch never happens before the allocation is terminal. -/
theorem C6_returns_post_allocation_fetch (env : AddressEnv) (fuel n : Nat)
    (h : create_address.loop env.polls fuel 0 = some n) :
    create_address env fuel = some (env.fetch n) ∧
    1 ≤ n ∧ (env.polls (n - 1)).status = "DONE" ∧
    ∀ i < n - 1, (env.polls i).status ≠ "DONE" := by
  obtain ⟨h1, h2, h3⟩ := addrLoop_exit env.polls fuel 0 n h
  refine ⟨?_, h1, h2, fun i hi => h3 i (Nat.zero_le i) hi⟩
  simp [create_address, h]

/-- Witness for C6: with an immediately terminal allocation, the
provisioner returns the value fetched after the single poll. -/
theorem C6_returns_post_allocation_fetch_witness :
    create_address addrEnvOk 1 = some (addrEnvOk.fetch 1) ∧
    (1 : Nat) ≤ 1 ∧ (addrEnvOk.polls 0).status = "DONE" :=
  ⟨(C6_returns_post_allocation_fetch addrEnvOk 1 1 (by decide)).1,
    (C6_returns_post_allocation_fetch addrEnvOk 1 1 (by decide)).2.1,
    (C6_returns_post_allocation_fetch addrEnvOk 1 1 (by decide)).2.2.1⟩

/-- C8: for every firewall name, the submitted rule body has exactly one
allow entry — protocol `tcp`, ports `22` and `80` — direction `INGRESS`
and the single source range `0.0.0.0/0`; only the name varies between
calls. -/
theorem C8_firewall_rule_is_static (firewall_name : String) (polls : Nat → OpResult)
    (fuel : Nat) :
    (create_firewall_rule firewall_name polls fuel).1 =
      { name := firewall_name
        allowed := [{ IPProtocol := "tcp", ports := ["22", "80"] }]
        direction := "INGRESS"
        sourceRanges := ["0.0.0.0/0"] } := rfl

/-! ### Claims about the orchestrator -/

/-- C2: the orchestrator submits at most the sequence address insert,
firewall insert, instance insert, in that order (the trace is always a
prefix of that pattern), and when the firewall wait raises, the run
fails with that exact payload and the instance-create submission count
is zero. -/
theorem C2_short_circuit_on_failure (env : Env) (fuel : Nat) :
    (∀ ip e q,
      create_address { polls := env.addressPolls, fetch := env.addressFetch } fuel = some ip →
      wait_for_global_operation env.firewallPolls fuel = WaitOutcome.raised e q →
      deploy_vm.main env fuel =
        (RunOutcome.raised e,
          [Event.addressInsert "vm-static-ip",
            Event.firewallInsert (firewall_body "allow-ssh-http")]) ∧
      countInstanceInserts (deploy_vm.main env fuel).2 = 0) ∧
    (∃ cfg,
      (deploy_vm.main env fuel).2 = [Event.addressInsert "vm-static-ip"] ∨
      (deploy_vm.main env fuel).2 =
        [Event.addressInsert "vm-static-ip",
          Event.firewallInsert (firewall_body "allow-ssh-http")] ∨
      (deploy_vm.main env fuel).2 =
        [Event.addressInsert "vm-static-ip",
          Event.firewallInsert (firewall_body "allow-ssh-http"),
          Event.instanceInsert cfg]) := by
  constructor
  · intro ip e q hca hfw
    have hm := main_fw_raised env fuel ip e q hca hfw
    rw [hm]
    exact ⟨rfl, rfl⟩
  · rcases hca : create_address { polls := env.addressPolls, fetch := env.addressFetch } fuel
      with _ | ip
    · exact ⟨cfgOk, Or.inl (by rw [main_addr_polling env fuel hca])⟩
    · cases hfw : wait_for_global_operation env.firewallPolls fuel with
      | polling => exact ⟨cfgOk, Or.inr (Or.inl (by rw [main_fw_polling env fuel ip hca hfw]))⟩
      | raised e q =>
          exact ⟨cfgOk, Or.inr (Or.inl (by rw [main_fw_raised env fuel ip e q hca hfw]))⟩
      | ok q =>
          refine ⟨instance_config "us-central1-a" "cloud-ca-vm-instance" ip "n1-standard-2"
            "projects/ubuntu-os-cloud/global/images/family/ubuntu-2004-lts" 250,
            Or.inr (Or.inr ?_)⟩
          cases hin : wait_for_operation env.instancePolls fuel with
          | polling => rw [main_inst_polling env fuel ip q hca hfw hin]
          | raised e q' => rw [main_inst_raised env fuel ip e q q' hca hfw hin]
          | ok q' => rw [main_inst_ok env fuel ip q q' hca hfw hin]

/-- Witness for C2: a run whose firewall operation fails with
`quota exceeded` raises exactly that payload and never submits an
instance create. -/
theorem C2_short_circuit_on_failure_witness :
    deploy_vm.main envFwQuota 1 =
      (RunOutcome.raised "quota exceeded",
        [Event.addressInsert "vm-static-ip",
          Event.firewallInsert (firewall_body "allow-ssh-http")]) ∧
    countInstanceInserts (deploy_vm.main envFwQuota 1).2 = 0 :=
  (C2_short_circuit_on_failure envFwQuota 1).1 "34.1.2.3" "quota exceeded" 1
    (by decide) (by decide)

/-- C3: every instance config submitted in a run carries, in the natIP
field of its single access config, the exact string that the address
provisioner of the same run returned — no truncation or reformatting. -/
theorem C3_natip_equals_returned_address (env : Env) (fuel : Nat) (cfg : InstanceConfig)
    (h : Event.instanceInsert cfg ∈ (deploy_vm.main env fuel).2) :
    ∃ ip, create_address { polls := env.addressPolls, fetch := env.addressFetch } fuel = some ip ∧
      cfg.networkInterfaces.map (fun ni => ni.accessConfigs.map AccessConfig.natIP) = [[ip]] := by
  obtain ⟨ip, hca, hcfg⟩ := main_instanceInsert_mem env fuel cfg h
  subst hcfg
  exact ⟨ip, hca, rfl⟩

/-- Witness for C3: in the all-success run the submitted config's natIP
is the returned address `34.1.2.3`, string-identical. -/
theorem C3_natip_equals_returned_address_witness :
    create_address { polls := envOk.addressPolls, fetch := envOk.addressFetch } 1 =
      some "34.1.2.3" ∧
    cfgOk.networkInterfaces.map (fun ni => ni.accessConfigs.map AccessConfig.natIP) =
      [["34.1.2.3"]] := by
  obtain ⟨ip, h1, h2⟩ := C3_natip_equals_returned_address envOk 1 cfgOk (by decide)
  have hv : create_address { polls := envOk.addressPolls, fetch := envOk.addressFetch } 1 =
      some "34.1.2.3" := by decide
  rw [hv] at h1
  injection h1 with hip
  subst hip
  exact ⟨hv, h2⟩

/-- C5: an instance-create submission can only occur after the regional
address loop has observed terminal status `DONE`, and the submitted
config embeds the value fetched after that terminal poll. -/
theorem C5_address_terminal_before_instance_submit (env : Env) (fuel : Nat)
    (cfg : InstanceConfig)
    (h : Event.instanceInsert cfg ∈ (deploy_vm.main env fuel).2) :
    ∃ n, create_address.loop env.addressPolls fuel 0 = some n ∧
      (env.addressPolls (n - 1)).status = "DONE" ∧
      cfg.networkInterfaces.map (fun ni => ni.accessConfigs.map AccessConfig.natIP) =
        [[env.addressFetch n]] := by
  obtain ⟨ip, hca, hcfg⟩ := main_instanceInsert_mem env fuel cfg h
  subst hcfg
  rcases hloop : create_address.loop env.addressPolls fuel 0 with _ | n
  · rw [create_address, hloop] at hca
    simp at hca
  · obtain ⟨_, h2, _⟩ := addrLoop_exit env.addressPolls fuel 0 n hloop
    refine ⟨n, rfl, h2, ?_⟩
    rw [create_address, hloop] at hca
    simp only [Option.some.injEq] at hca
    rw [← hca]
    rfl

/-- Witness for C5: in the all-success run the address loop exits after
one poll, which is `DONE`, and the config embeds the value fetched at
time 1. -/
theorem C5_address_terminal_before_instance_submit_witness :
    create_address.loop envOk.addressPolls 1 0 = some 1 ∧
    (envOk.addressPolls 0).status = "DONE" ∧
    cfgOk.networkInterfaces.map (fun ni => ni.accessConfigs.map AccessConfig.natIP) =
      [[envOk.addressFetch 1]] := by
  obtain ⟨n, h1, h2, h3⟩ :=
    C5_address_terminal_before_instance_submit envOk 1 cfgOk (by decide)
  have hv : create_address.loop envOk.addressPolls 1 0 = some 1 := by decide
  rw [hv] at h1
  injection h1 with hn
  subst hn
  exact ⟨hv, h2, h3⟩
